import Mathlib

/-!
Verification development for the `pex` CLI (`pex/bin/pex.py`).

The repository source available here is the command-line front end
(`pex/bin/pex.py`) plus packaging metadata.  The library modules it imports
(`pex.package`, `pex.translator`, `pex.obtainer`, `pex.resolver`,
`pex.platforms`, `pex.common`, `pex.pex_builder`) are not part of the source
tree; where a property depends on their behaviour, the corresponding
definition below is modelled from the specification and carries a doc
comment starting with `Modelled from the spec:`.  Everything else is a
direct shallow embedding of the Python code in `pex/bin/pex.py`.
-/

set_option autoImplicit false

namespace PexSpec

/-! ## Package classes, translators, installers, fetchers

`WheelPackage`, `EggPackage`, `SourcePackage` are the three package classes
imported from `pex.package` and used in `build_obtainer`'s precedence tuple.
-/

inductive PackageClass where
  | WheelPackage
  | EggPackage
  | SourcePackage
deriving DecidableEq, Repr

/-- The installer implementations imported from `pex.installer`. -/
inductive InstallerImpl where
  | WheelInstaller
  | EggInstaller
deriving DecidableEq, Repr

/-- The translator classes imported from `pex.translator`.  The source
translator carries the installer implementation it was constructed with
(`installer_impl=` keyword in `translator_from_options`). -/
inductive Translator where
  | WheelTranslator
  | EggTranslator
  | SourceTranslator (installer_impl : InstallerImpl)
deriving DecidableEq, Repr

/-- The fetcher objects built in `build_obtainer`: an explicit-repository
`Fetcher(options.repos)`, the default `PyPIFetcher()` (index `none`), and
`PyPIFetcher(index)` for each additional index. -/
inductive FetcherKind where
  | Fetcher (repos : List String)
  | PyPIFetcher (index : Option String)
deriving DecidableEq, Repr

/-! ## Packages and requirements (data model of §3 of the spec) -/

/-- Modelled from the spec: the `Package` value type of `pex.package` (not
under src): name, version and format.  Versions are abstracted to naturals;
location and compatibility tag are irrelevant to the claims below. -/
structure Package where
  name : String
  version : Nat
  pkgClass : PackageClass
deriving DecidableEq, Repr

/-- Modelled from the spec: the format precedence rank of `pex.package`
(not under src): `prebuilt-wheel > prebuilt-egg-like > source`, realized as
a numeric rank so that a higher rank means higher precedence. -/
def formatRank : PackageClass → Nat
  | .WheelPackage => 2
  | .EggPackage => 1
  | .SourcePackage => 0

/-- `a` ranks strictly above `b` in the format precedence order, for two
packages of equal name and version (the only context in which the order is
consulted). -/
def Package.precedenceAbove (a b : Package) : Prop :=
  formatRank b.pkgClass < formatRank a.pkgClass

instance (a b : Package) : Decidable (a.precedenceAbove b) := by
  unfold Package.precedenceAbove; infer_instance

/-- Version constraint expressions, enough to express the constraints the
claims mention (`pkg>=2`, `pkg<2`, `pkg==2`). -/
inductive VersionConstraint where
  | any
  | eqV (v : Nat)
  | ge (v : Nat)
  | lt (v : Nat)
deriving DecidableEq, Repr

def VersionConstraint.satisfiedBy : VersionConstraint → Nat → Bool
  | .any, _ => true
  | .eqV w, v => v == w
  | .ge w, v => decide (w ≤ v)
  | .lt w, v => decide (v < w)

/-- Modelled from the spec: a `Requirement` is a package name plus a
version constraint expression (`pex.resolver` / pkg_resources are not under
src). -/
structure Requirement where
  name : String
  constraint : VersionConstraint
deriving DecidableEq, Repr

/-- Modelled from the spec: `Package.satisfies(requirement)` is
name + version-constraint match. -/
def Package.satisfies (p : Package) (r : Requirement) : Bool :=
  p.name == r.name && r.constraint.satisfiedBy p.version

/-! ## CLI options (`configure_clp`)

One field per `dest=` of `parser.add_option`, with the option types the
callbacks and defaults give them. -/

structure Options where
  pypi : Bool
  use_wheel : Bool
  allow_builds : Bool
  python : Option String
  platform : String
  zip_safe : Bool
  always_write_cache : Bool
  ignore_errors : Bool
  inherit_path : Bool
  cache_dir : String
  pex_name : Option String
  entry_point : Option String
  requirements : List String
  repos : List String
  indices : List String
  source_dirs : List String
  verbosity : Bool
deriving DecidableEq, Repr

/-- Python's `str.startswith`: the candidate's character sequence begins
with the given one. -/
def str_startswith (s pre : String) : Bool :=
  pre.data.isPrefixOf s.data

/-- `parse_bool(option, opt_str, _, parser)` sets the option's destination
to `not opt_str.startswith('--no')`; this is the value it stores. -/
def parse_bool (opt_str : String) : Bool :=
  !(str_startswith opt_str "--no")

/-- Modelled from the spec: the process-wide state `Platform.current()`
reads (`pex.platforms` is not under src).  The spec fixes it as computed
once per run and immutable process-wide. -/
structure ProcessState where
  platformTag : String
deriving DecidableEq, Repr

/-- Modelled from the spec: `Platform.current()` returns the immutable
process-wide current platform tag (`pex.platforms` is not under src). -/
def Platform.current (ps : ProcessState) : String :=
  ps.platformTag

/-- The defaults `configure_clp` installs (the `default=` of each option).
The `--platform` default is `Platform.current()`; `os.path.expanduser` on
the cache-dir default is environment interaction outside the model, so the
unexpanded literal is kept. -/
def configure_clp_defaults (ps : ProcessState) : Options where
  pypi := true
  use_wheel := true
  allow_builds := true
  python := none
  platform := Platform.current ps
  zip_safe := true
  always_write_cache := false
  ignore_errors := false
  inherit_path := false
  cache_dir := "~/.pex/build"
  pex_name := none
  entry_point := none
  requirements := []
  repos := []
  indices := []
  source_dirs := []
  verbosity := false

/-! ## `translator_from_options` -/

/-- `ChainedTranslator(*translators)` from `pex.translator`: holds the
configured sub-translators in order. -/
structure ChainedTranslator where
  translators : List Translator
deriving DecidableEq, Repr

/-- Modelled from the spec: `ChainedTranslator.translate` tries each
configured sub-translator in order and returns the first success
(`pex.translator` is not under src; the CLI only constructs the chain).
`results` gives each sub-translator's outcome on the artifact location
being translated. -/
def chained_translate (results : Translator → Option Package) :
    List Translator → Option Package
  | [] => none
  | t :: ts =>
      match results t with
      | some p => some p
      | none => chained_translate results ts

def ChainedTranslator.translate (c : ChainedTranslator)
    (results : Translator → Option Package) : Option Package :=
  chained_translate results c.translators

/-- Embedding of `translator_from_options` (pex.py lines 206-225): a wheel
translator first when wheels are enabled (and the wheel installer chosen),
then the egg translator, then a source translator carrying the chosen
installer when builds are allowed. -/
def translator_from_options (options : Options) : ChainedTranslator :=
  let installer_impl :=
    if options.use_wheel then InstallerImpl.WheelInstaller
    else InstallerImpl.EggInstaller
  let translators : List Translator :=
    if options.use_wheel then [Translator.WheelTranslator] else []
  let translators := translators ++ [Translator.EggTranslator]
  let translators :=
    if options.allow_builds then
      translators ++ [Translator.SourceTranslator installer_impl]
    else translators
  ChainedTranslator.mk translators

/-! ## `build_obtainer` -/

/-- `CachingObtainer` as constructed by `build_obtainer` (pex.py lines
247-251): the configuration the CLI hands it. -/
structure CachingObtainer where
  install_cache : String
  fetchers : List FetcherKind
  translators : ChainedTranslator
  precedence : List PackageClass
deriving DecidableEq, Repr

/-- Embedding of `build_obtainer` (pex.py lines 228-253). -/
def build_obtainer (options : Options) : CachingObtainer :=
  let fetchers := [FetcherKind.Fetcher options.repos]
  let fetchers :=
    if options.pypi then fetchers ++ [FetcherKind.PyPIFetcher none]
    else fetchers
  let fetchers :=
    if options.indices.isEmpty then fetchers
    else fetchers ++
      options.indices.map (fun index => FetcherKind.PyPIFetcher (some index))
  let translator := translator_from_options options
  let package_precedence :=
    if options.use_wheel then
      [PackageClass.WheelPackage, PackageClass.EggPackage,
        PackageClass.SourcePackage]
    else [PackageClass.EggPackage, PackageClass.SourcePackage]
  { install_cache := options.cache_dir
    fetchers := fetchers
    translators := translator
    precedence := package_precedence }

/-- Modelled from the spec: the Obtainer queries its fetchers in configured
order and concatenates the candidate sequences, without merging or
deduplication (`pex.obtainer` is not under src).  `results` gives each
fetcher's candidate locations for the requirement being obtained. -/
def iter_candidates (results : FetcherKind → List String) :
    List FetcherKind → List String
  | [] => []
  | f :: fs => results f ++ iter_candidates results fs

/-! ## Resolver (`pex.resolver.resolve`, modelled from the spec) -/

inductive ResolveError where
  | UnresolvedRequirement (r : Requirement)
  | VersionConflict (locked_req new_req : Requirement)
deriving DecidableEq, Repr

/-- Modelled from the spec: the Resolver's work-queue state machine
(`pex.resolver` is not under src; the CLI only calls `resolve`).  It pops a
pending requirement; a name already obtained is locked in — if the locked
Package satisfies the new requirement it is skipped, otherwise resolution
fails with `VersionConflict` naming the first requiring requirement and the
new one; an unobtained name is handed to the Obtainer (`obtain`), failure
being `UnresolvedRequirement`, success locking the Package in and enqueuing
its declared dependencies.  `activated` records (first requiring
requirement, locked Package) pairs in the order names became obtained;
`fuel` bounds the loop, `none` meaning it was exhausted. -/
def resolve_loop (obtain : Requirement → Option Package)
    (deps : Package → List Requirement) :
    Nat → List Requirement → List (Requirement × Package) →
    Option (Except ResolveError (List Package))
  | _, [], activated => some (.ok (activated.map (fun rp => rp.2)))
  | 0, _ :: _, _ => none
  | fuel + 1, r :: queue, activated =>
      match activated.find? (fun rp => rp.2.name == r.name) with
      | some (r0, p) =>
          if p.satisfies r then resolve_loop obtain deps fuel queue activated
          else some (.error (.VersionConflict r0 r))
      | none =>
          match obtain r with
          | none => some (.error (.UnresolvedRequirement r))
          | some p =>
              resolve_loop obtain deps fuel (queue ++ deps p)
                (activated ++ [(r, p)])

/-- Modelled from the spec: `resolve(requirements, ...)` runs the work
queue seeded with the input requirements and no name yet obtained. -/
def resolve (obtain : Requirement → Option Package)
    (deps : Package → List Requirement) (fuel : Nat)
    (requirements : List Requirement) :
    Option (Except ResolveError (List Package)) :=
  resolve_loop obtain deps fuel requirements []

/-! ## `build_pex` -/

/-- The PexInfo metadata `build_pex` fills in.  Its initial entry point is
unset; modelled from the spec, the entry-point descriptor defaults to
"none meaning interactive" (`pex.pex_info` is not under src). -/
structure PexInfo where
  zip_safe : Bool
  always_write_cache : Bool
  ignore_errors : Bool
  inherit_path : Bool
  entry_point : Option String
deriving DecidableEq, Repr

/-- The part of the `PEXBuilder` state that `build_pex` configures: the
bundle info and the installer implementation chosen for `--source-dir`
builds (pex.py line 271). -/
structure PexBuilderModel where
  info : PexInfo
  installer : InstallerImpl
deriving DecidableEq, Repr

/-- Embedding of `build_pex` (pex.py lines 256-300) restricted to the
builder state it configures: the four metadata flags are copied from the
options, the installer is the wheel installer iff wheels are enabled, and
`pex_builder.info.entry_point` is assigned exactly when
`options.entry_point is not None`, verbatim. -/
def build_pex (options : Options) : PexBuilderModel :=
  let pex_info : PexInfo :=
    { zip_safe := options.zip_safe
      always_write_cache := options.always_write_cache
      ignore_errors := options.ignore_errors
      inherit_path := options.inherit_path
      entry_point := none }
  let installer :=
    if options.use_wheel then InstallerImpl.WheelInstaller
    else InstallerImpl.EggInstaller
  let pex_info :=
    match options.entry_point with
    | some ep => { pex_info with entry_point := some ep }
    | none => pex_info
  { info := pex_info, installer := installer }

/-- Modelled from the spec: what the bundle runtime bootstrap does with the
entry-point descriptor when the bundle runs (`pex.pex` is not under src) —
dispatch to the entry point, or surface an interactive session (Python
REPL) when none was set. -/
inductive BootstrapAction where
  | dispatch (entry_point : String)
  | interactiveREPL
deriving DecidableEq, Repr

/-- Modelled from the spec: the bootstrap's final dispatch step as a
function of the frozen bundle info. -/
def bootstrap_dispatch (info : PexInfo) : BootstrapAction :=
  match info.entry_point with
  | some ep => BootstrapAction.dispatch ep
  | none => BootstrapAction.interactiveREPL

/-! ## `main` and the filesystem effects of saving a PEX file

The filesystem is a map from paths to file contents (contents abstracted
to naturals); `safe_delete` and `os.rename` act on it pointwise. -/

def FS : Type := String → Option Nat

/-- Modelled from the spec: `safe_delete` (from `pex.common`, not under
src) removes the file at the path if present — on-disk temp-file hygiene. -/
def safe_delete (fs : FS) (path : String) : FS :=
  fun q => if q = path then none else fs q

/-- Write a file: used to model `pex_builder.build(tmp_name)` producing its
container at the staging path. -/
def fs_write (fs : FS) (path : String) (content : Option Nat) : FS :=
  fun q => if q = path then content else fs q

/-- `os.rename(src, dst)`: `dst` receives `src`'s content, `src` is gone. -/
def os_rename (fs : FS) (src dst : String) : FS :=
  fun q => if q = dst then fs src else if q = src then none else fs q

/-- The platform check of pex.py line 320: warn when the `--platform`
option differs from `Platform.current()`. -/
def platform_warning (options : Options) (ps : ProcessState) : Bool :=
  options.platform != Platform.current ps

inductive MainOutcome where
  /-- The `options.pex_name is not None` branch exited with this status
  leaving this filesystem. -/
  | saved (status : Nat) (fs : FS)
  /-- `pex_builder.build(tmp_name)` raised; the filesystem at that point. -/
  | buildRaised (fs : FS)
  /-- No output file: the PEX was frozen in place and executed, possibly
  after the differing-platform warning. -/
  | ran (warned : Bool) (status : Nat) (fs : FS)

/-- Embedding of `main` (pex.py lines 303-327) after `build_pex`.
`buildOutcome` is the outcome of `pex_builder.build(tmp_name)`: `some c`
when it produces the container `c`, `none` when it raises; modelled from
the spec, a failed build touches at most its own staging path, leaving
`tmpOnFailure` there.  `runStatus` is `pex.run`'s exit status. -/
def main_after_build_pex (options : Options) (ps : ProcessState) (fs : FS)
    (buildOutcome : Option Nat) (tmpOnFailure : Option Nat)
    (runStatus : Nat) : MainOutcome :=
  match options.pex_name with
  | some pex_name =>
      let tmp_name := pex_name ++ "~"
      let fs1 := safe_delete fs tmp_name
      match buildOutcome with
      | some content =>
          MainOutcome.saved 0 (os_rename (fs_write fs1 tmp_name (some content)) tmp_name pex_name)
      | none => MainOutcome.buildRaised (fs_write fs1 tmp_name tmpOnFailure)
  | none =>
      MainOutcome.ran (platform_warning options ps) runStatus fs

/-! ## Concrete example values used by witnesses -/

def psExample : ProcessState := ProcessState.mk "linux-x86_64"

def wheelPkgExample : Package :=
  Package.mk "foo" 1 PackageClass.WheelPackage

def eggPkgExample : Package :=
  Package.mk "foo" 1 PackageClass.EggPackage

def srcPkgExample : Package :=
  Package.mk "foo" 1 PackageClass.SourcePackage

end PexSpec

namespace PexSpec

/-! ## Theorems -/

/-- **C1.** For every pair of Packages with equal name and version, the
format precedence order ranks prebuilt-wheel above prebuilt-egg-like above
source; the order is total on distinct formats, stable (it depends only on
the formats compared), transitive and antisymmetric; and the precedence
tuple the CLI configures into the Obtainer lists the package classes in
exactly this order (in full whenever wheels are enabled, which is the
default). -/
theorem c1_format_precedence_total_order :
    (∀ a b : Package, a.name = b.name → a.version = b.version →
      a.pkgClass = PackageClass.WheelPackage →
      b.pkgClass = PackageClass.EggPackage → a.precedenceAbove b) ∧
    (∀ a b : Package, a.name = b.name → a.version = b.version →
      a.pkgClass = PackageClass.EggPackage →
      b.pkgClass = PackageClass.SourcePackage → a.precedenceAbove b) ∧
    (∀ a b : Package, a.name = b.name → a.version = b.version →
      a.pkgClass ≠ b.pkgClass → a.precedenceAbove b ∨ b.precedenceAbove a) ∧
    (∀ a b c : Package, a.precedenceAbove b → b.precedenceAbove c →
      a.precedenceAbove c) ∧
    (∀ a b : Package, a.precedenceAbove b → ¬ b.precedenceAbove a) ∧
    (∀ a a2 b b2 : Package, a.pkgClass = a2.pkgClass →
      b.pkgClass = b2.pkgClass →
      (a.precedenceAbove b ↔ a2.precedenceAbove b2)) ∧
    (∀ options : Options, options.use_wheel = true →
      (build_obtainer options).precedence =
        [PackageClass.WheelPackage, PackageClass.EggPackage,
          PackageClass.SourcePackage]) := by
  refine ⟨?_, ?_, ?_, ?_, ?_, ?_, ?_⟩
  · intro a b _ _ ha hb
    simp [Package.precedenceAbove, ha, hb, formatRank]
  · intro a b _ _ ha hb
    simp [Package.precedenceAbove, ha, hb, formatRank]
  · intro a b _ _ hne
    rcases a with ⟨an, av, ac⟩
    rcases b with ⟨bn, bv, bc⟩
    cases ac <;> cases bc <;>
      simp_all [Package.precedenceAbove, formatRank]
  · intro a b c hab hbc
    unfold Package.precedenceAbove at hab hbc ⊢
    omega
  · intro a b hab
    unfold Package.precedenceAbove at hab ⊢
    omega
  · intro a a2 b b2 ha hb
    unfold Package.precedenceAbove
    rw [ha, hb]
  · intro options h
    simp [build_obtainer, h]

theorem c1_format_precedence_total_order_witness :
    wheelPkgExample.precedenceAbove eggPkgExample ∧
    eggPkgExample.precedenceAbove srcPkgExample ∧
    wheelPkgExample.precedenceAbove srcPkgExample ∧
    (build_obtainer (configure_clp_defaults psExample)).precedence =
      [PackageClass.WheelPackage, PackageClass.EggPackage,
        PackageClass.SourcePackage] := by
  have hwe := c1_format_precedence_total_order.1 wheelPkgExample eggPkgExample
    rfl rfl rfl rfl
  have hes := c1_format_precedence_total_order.2.1 eggPkgExample srcPkgExample
    rfl rfl rfl rfl
  refine ⟨hwe, hes, ?_, ?_⟩
  · exact c1_format_precedence_total_order.2.2.2.1 wheelPkgExample eggPkgExample
      srcPkgExample hwe hes
  · exact c1_format_precedence_total_order.2.2.2.2.2.2
      (configure_clp_defaults psExample) rfl

/-- **C8.** The current-process platform tag is a pure read of immutable
process-wide state: for any process state, `Platform.current` returns that
single value, the `--platform` option default observes it, and the
pre-execution platform check observes the same value — so a run left at the
default platform never takes the differing-platform warning. -/
theorem c8_current_platform_single_value :
    ∀ ps : ProcessState,
      Platform.current ps = ps.platformTag ∧
      (configure_clp_defaults ps).platform = Platform.current ps ∧
      platform_warning (configure_clp_defaults ps) ps = false := by
  intro ps
  refine ⟨rfl, rfl, ?_⟩
  simp [platform_warning, configure_clp_defaults, Platform.current]

/-- **C9.** `parse_bool` stores `False` exactly when the invoked flag
string begins with the characters `--no` and `True` otherwise; on the
paired flags this yields the documented values, and `--not-zip-safe` sets
`zip_safe` to `False` only because it begins with `--no`. -/
theorem c9_parse_bool_startswith_no :
    (∀ opt_str : String, str_startswith opt_str "--no" = true →
      parse_bool opt_str = false) ∧
    (∀ opt_str : String, str_startswith opt_str "--no" = false →
      parse_bool opt_str = true) ∧
    parse_bool "--pypi" = true ∧ parse_bool "--no-pypi" = false ∧
    parse_bool "--wheel" = true ∧ parse_bool "--no-wheel" = false ∧
    parse_bool "--build" = true ∧ parse_bool "--no-build" = false ∧
    parse_bool "--zip-safe" = true ∧
    str_startswith "--not-zip-safe" "--no" = true ∧
    parse_bool "--not-zip-safe" = false := by
  refine ⟨?_, ?_, ?_⟩
  · intro opt_str h
    simp [parse_bool, h]
  · intro opt_str h
    simp [parse_bool, h]
  · decide

theorem c9_parse_bool_startswith_no_witness :
    parse_bool "--no-pypi" = false ∧ parse_bool "--zip-safe" = true ∧
    parse_bool "--not-zip-safe" = false := by
  refine ⟨?_, ?_, ?_⟩
  · exact c9_parse_bool_startswith_no.1 "--no-pypi" (by decide)
  · exact c9_parse_bool_startswith_no.2.1 "--zip-safe" (by decide)
  · exact c9_parse_bool_startswith_no.1 "--not-zip-safe" (by decide)

/-- Translation outcomes used by the C2 witness: only the egg translator
succeeds on the location in question. -/
def translateResultsExample : Translator → Option Package :=
  fun t => if t = Translator.EggTranslator then some eggPkgExample else none

/-- **C2.** The chained translator the CLI builds lists its sub-translators
in format-precedence order — wheel first when wheels are enabled, then egg,
then source when builds are allowed (the source translator carrying the
chosen installer); and `translate` on a chain returns the result of the
first sub-translator that succeeds, skipping every earlier one that does
not. -/
theorem c2_chained_translator_order_first_success :
    (∀ options : Options,
      (translator_from_options options).translators =
        (if options.use_wheel then [Translator.WheelTranslator] else []) ++
        [Translator.EggTranslator] ++
        (if options.allow_builds then
          [Translator.SourceTranslator
            (if options.use_wheel then InstallerImpl.WheelInstaller
             else InstallerImpl.EggInstaller)]
         else [])) ∧
    (∀ (results : Translator → Option Package) (skipped : List Translator)
        (t : Translator) (rest : List Translator) (p : Package),
      (∀ u ∈ skipped, results u = none) → results t = some p →
      chained_translate results (skipped ++ t :: rest) = some p) := by
  constructor
  · intro options
    cases hw : options.use_wheel <;> cases hb : options.allow_builds <;>
      simp [translator_from_options, hw, hb]
  · intro results skipped t rest p h1 h2
    induction skipped with
    | nil => simp [chained_translate, h2]
    | cons u us ih =>
        have hu : results u = none := h1 u (List.mem_cons_self u us)
        simpa [chained_translate, hu] using
          ih (fun v hv => h1 v (List.mem_cons_of_mem u hv))

theorem c2_chained_translator_order_first_success_witness :
    (translator_from_options (configure_clp_defaults psExample)).translators =
      [Translator.WheelTranslator, Translator.EggTranslator,
        Translator.SourceTranslator InstallerImpl.WheelInstaller] ∧
    chained_translate translateResultsExample
      ([Translator.WheelTranslator] ++ Translator.EggTranslator ::
        [Translator.SourceTranslator InstallerImpl.WheelInstaller]) =
      some eggPkgExample := by
  constructor
  · simpa using
      c2_chained_translator_order_first_success.1 (configure_clp_defaults psExample)
  · exact c2_chained_translator_order_first_success.2 translateResultsExample
      [Translator.WheelTranslator] Translator.EggTranslator
      [Translator.SourceTranslator InstallerImpl.WheelInstaller] eggPkgExample
      (by decide) (by decide)

/-- The default options with wheels disabled (`--no-wheel`), as the C3
witness input. -/
def noWheelOptionsExample : Options :=
  { configure_clp_defaults psExample with use_wheel := false }

/-- **C3.** With `use_wheel` false, wheel candidates are excluded from
obtaining: the translator chain contains no wheel translator (when builds
are allowed it is exactly egg-then-source, the source translator carrying
the egg installer), the configured package precedence tuple contains no
wheel package class, and the installer implementation `build_pex` uses for
source builds is the egg installer. -/
theorem c3_no_wheel_configuration :
    ∀ options : Options, options.use_wheel = false →
      Translator.WheelTranslator ∉ (translator_from_options options).translators ∧
      PackageClass.WheelPackage ∉ (build_obtainer options).precedence ∧
      (options.allow_builds = true →
        (translator_from_options options).translators =
          [Translator.EggTranslator,
            Translator.SourceTranslator InstallerImpl.EggInstaller]) ∧
      (build_pex options).installer = InstallerImpl.EggInstaller := by
  intro options h
  refine ⟨?_, ?_, ?_, ?_⟩
  · cases hb : options.allow_builds <;>
      simp [translator_from_options, h, hb]
  · simp [build_obtainer, h]
  · intro hb
    simp [translator_from_options, h, hb]
  · cases he : options.entry_point <;> simp [build_pex, h, he]

theorem c3_no_wheel_configuration_witness :
    Translator.WheelTranslator ∉
      (translator_from_options noWheelOptionsExample).translators ∧
    PackageClass.WheelPackage ∉
      (build_obtainer noWheelOptionsExample).precedence ∧
    (translator_from_options noWheelOptionsExample).translators =
      [Translator.EggTranslator,
        Translator.SourceTranslator InstallerImpl.EggInstaller] ∧
    (build_pex noWheelOptionsExample).installer = InstallerImpl.EggInstaller :=
  ⟨(c3_no_wheel_configuration noWheelOptionsExample rfl).1,
   (c3_no_wheel_configuration noWheelOptionsExample rfl).2.1,
   (c3_no_wheel_configuration noWheelOptionsExample rfl).2.2.1 rfl,
   (c3_no_wheel_configuration noWheelOptionsExample rfl).2.2.2⟩

/-- **C5.** The CLI builds the fetcher list with the explicit-repository
fetcher first, then the default PyPI fetcher exactly when enabled, then one
fetcher per additional index in the order the indices were given; and the
candidate sequences of the fetchers are concatenated in fetcher order —
lengths add up, so nothing is merged or deduplicated. -/
theorem c5_fetcher_order_concatenation :
    (∀ options : Options,
      (build_obtainer options).fetchers =
        [FetcherKind.Fetcher options.repos] ++
        (if options.pypi then [FetcherKind.PyPIFetcher none] else []) ++
        options.indices.map
          (fun index => FetcherKind.PyPIFetcher (some index))) ∧
    (∀ (results : FetcherKind → List String)
        (fs1 fs2 : List FetcherKind),
      iter_candidates results (fs1 ++ fs2) =
        iter_candidates results fs1 ++ iter_candidates results fs2) ∧
    (∀ (results : FetcherKind → List String) (fs : List FetcherKind),
      (iter_candidates results fs).length =
        (fs.map (fun f => (results f).length)).sum) := by
  refine ⟨?_, ?_, ?_⟩
  · intro options
    cases hp : options.pypi <;> cases hidx : options.indices <;>
      simp [build_obtainer, hp, hidx]
  · intro results fs1 fs2
    induction fs1 with
    | nil => simp [iter_candidates]
    | cons f fs ih => simp [iter_candidates, ih]
  · intro results fs
    induction fs with
    | nil => simp [iter_candidates]
    | cons f fs ih => simp [iter_candidates, ih]

/-- The default options with `--entry-point my_module:main` given, as the
C7 witness input. -/
def entryPointOptionsExample : Options :=
  { configure_clp_defaults psExample with entry_point := some "my_module:main" }

/-- **C7.** When the entry-point option is omitted (left `None`),
`build_pex` leaves the bundle's entry point unset and the bootstrap of the
resulting bundle surfaces an interactive session (Python REPL); when an
entry point is given it is recorded verbatim in the bundle info and the
bootstrap dispatches to it. -/
theorem c7_entry_point_recorded_or_repl :
    (∀ options : Options, options.entry_point = none →
      (build_pex options).info.entry_point = none ∧
      bootstrap_dispatch (build_pex options).info =
        BootstrapAction.interactiveREPL) ∧
    (∀ (options : Options) (ep : String), options.entry_point = some ep →
      (build_pex options).info.entry_point = some ep ∧
      bootstrap_dispatch (build_pex options).info =
        BootstrapAction.dispatch ep) := by
  constructor
  · intro options h
    constructor <;> simp [build_pex, bootstrap_dispatch, h]
  · intro options ep h
    constructor <;> simp [build_pex, bootstrap_dispatch, h]

theorem c7_entry_point_recorded_or_repl_witness :
    ((build_pex (configure_clp_defaults psExample)).info.entry_point = none ∧
      bootstrap_dispatch (build_pex (configure_clp_defaults psExample)).info =
        BootstrapAction.interactiveREPL) ∧
    ((build_pex entryPointOptionsExample).info.entry_point =
        some "my_module:main" ∧
      bootstrap_dispatch (build_pex entryPointOptionsExample).info =
        BootstrapAction.dispatch "my_module:main") :=
  ⟨c7_entry_point_recorded_or_repl.1 (configure_clp_defaults psExample) rfl,
   c7_entry_point_recorded_or_repl.2 entryPointOptionsExample "my_module:main" rfl⟩

/-- The scenario requirement `pkg>=2`. -/
def reqA : Requirement := Requirement.mk "pkg" (VersionConstraint.ge 2)

/-- The scenario requirement `pkg<2`. -/
def reqB : Requirement := Requirement.mk "pkg" (VersionConstraint.lt 2)

/-- The scenario package `pkg==2` (a wheel). -/
def pkg2Example : Package := Package.mk "pkg" 2 PackageClass.WheelPackage

/-- An Obtainer that can produce exactly `pkg==2`, for any requirement it
satisfies. -/
def obtainPkgExample : Requirement → Option Package :=
  fun r => if pkg2Example.satisfies r then some pkg2Example else none

/-- Packages with no declared dependencies. -/
def noDepsExample : Package → List Requirement := fun _ => []

/-- **C6.** The resolver does not reconcile constraints on an
already-obtained name: when the requirement popped from the queue names a
package that is locked in, a satisfied requirement is simply skipped (the
locked Package kept, nothing re-obtained), and an unsatisfied one fails the
whole resolution with `VersionConflict` naming the first requiring
requirement and the later one; on the concrete scenario — A needing
`pkg>=2` resolved to `pkg==2`, then B needing `pkg<2` — `resolve` returns
`VersionConflict` naming A and B. -/
theorem c6_version_conflict_not_reconciled :
    (∀ (obtain : Requirement → Option Package)
        (deps : Package → List Requirement) (fuel : Nat) (r : Requirement)
        (queue : List Requirement)
        (activated : List (Requirement × Package))
        (r0 : Requirement) (p : Package),
      activated.find? (fun rp => rp.2.name == r.name) = some (r0, p) →
      p.satisfies r = true →
      resolve_loop obtain deps (fuel + 1) (r :: queue) activated =
        resolve_loop obtain deps fuel queue activated) ∧
    (∀ (obtain : Requirement → Option Package)
        (deps : Package → List Requirement) (fuel : Nat) (r : Requirement)
        (queue : List Requirement)
        (activated : List (Requirement × Package))
        (r0 : Requirement) (p : Package),
      activated.find? (fun rp => rp.2.name == r.name) = some (r0, p) →
      p.satisfies r = false →
      resolve_loop obtain deps (fuel + 1) (r :: queue) activated =
        some (Except.error (ResolveError.VersionConflict r0 r))) ∧
    resolve obtainPkgExample noDepsExample 5 [reqA, reqB] =
      some (Except.error (ResolveError.VersionConflict reqA reqB)) := by
  refine ⟨?_, ?_, ?_⟩
  · intro obtain deps fuel r queue activated r0 p h1 h2
    simp [resolve_loop, h1, h2]
  · intro obtain deps fuel r queue activated r0 p h1 h2
    simp [resolve_loop, h1, h2]
  · rfl

theorem c6_version_conflict_not_reconciled_witness :
    (resolve_loop obtainPkgExample noDepsExample 3 [reqA]
        [(reqA, pkg2Example)] =
      resolve_loop obtainPkgExample noDepsExample 2 [] [(reqA, pkg2Example)]) ∧
    resolve_loop obtainPkgExample noDepsExample 3 [reqB]
        [(reqA, pkg2Example)] =
      some (Except.error (ResolveError.VersionConflict reqA reqB)) :=
  ⟨c6_version_conflict_not_reconciled.1 obtainPkgExample noDepsExample 2
      reqA [] [(reqA, pkg2Example)] reqA pkg2Example (by decide) (by decide),
   c6_version_conflict_not_reconciled.2.1 obtainPkgExample noDepsExample 2
      reqB [] [(reqA, pkg2Example)] reqA pkg2Example (by decide) (by decide)⟩

/-- Appending the `~` staging suffix never reproduces the destination
path itself, so the rename's source and destination are distinct. -/
theorem tilde_staging_path_ne (n : String) : n ≠ n ++ "~" := by
  intro h
  have hlen := congrArg String.length h
  rw [String.length_append] at hlen
  have hone : ("~" : String).length = 1 := rfl
  omega

/-- The default options with `-o out.pex` given, as the C4 witness input. -/
def saveOptionsExample : Options :=
  { configure_clp_defaults psExample with pex_name := some "out.pex" }

/-- An empty filesystem. -/
def emptyFS : FS := fun _ => none

/-- **C4.** With an output file name given, saving is atomic from the
caller's perspective: the build is staged to the `~`-suffixed temporary
path and moved onto the destination by the single rename, so on success the
destination holds exactly the fully-formed container, and if the build step
fails the destination path is left unchanged. -/
theorem c4_atomic_save :
    ∀ (options : Options) (ps : ProcessState) (fs : FS)
      (tmpOnFailure : Option Nat) (runStatus : Nat) (n : String),
      options.pex_name = some n →
      (∀ content : Nat,
        main_after_build_pex options ps fs (some content) tmpOnFailure
            runStatus =
          MainOutcome.saved 0
            (os_rename (fs_write (safe_delete fs (n ++ "~")) (n ++ "~")
              (some content)) (n ++ "~") n) ∧
        (os_rename (fs_write (safe_delete fs (n ++ "~")) (n ++ "~")
            (some content)) (n ++ "~") n) n = some content) ∧
      (main_after_build_pex options ps fs none tmpOnFailure runStatus =
          MainOutcome.buildRaised
            (fs_write (safe_delete fs (n ++ "~")) (n ++ "~") tmpOnFailure) ∧
        (fs_write (safe_delete fs (n ++ "~")) (n ++ "~") tmpOnFailure) n =
          fs n) := by
  intro options ps fs tmpOnFailure runStatus n h
  have hne := tilde_staging_path_ne n
  constructor
  · intro content
    constructor
    · simp [main_after_build_pex, h]
    · simp [os_rename, fs_write]
  · constructor
    · simp [main_after_build_pex, h]
    · simp [fs_write, safe_delete, hne]

theorem c4_atomic_save_witness :
    (main_after_build_pex saveOptionsExample psExample emptyFS (some 7)
        none 0 =
      MainOutcome.saved 0
        (os_rename (fs_write (safe_delete emptyFS ("out.pex" ++ "~"))
          ("out.pex" ++ "~") (some 7)) ("out.pex" ++ "~") "out.pex") ∧
      (os_rename (fs_write (safe_delete emptyFS ("out.pex" ++ "~"))
        ("out.pex" ++ "~") (some 7)) ("out.pex" ++ "~") "out.pex")
          "out.pex" = some 7) ∧
    (fs_write (safe_delete emptyFS ("out.pex" ++ "~")) ("out.pex" ++ "~")
        none) "out.pex" = emptyFS "out.pex" :=
  ⟨(c4_atomic_save saveOptionsExample psExample emptyFS none 0 "out.pex"
      rfl).1 7,
   ((c4_atomic_save saveOptionsExample psExample emptyFS none 0 "out.pex"
      rfl).2).2⟩

/-- The default options with `-o app.pex` given, as the C10 witness
input. -/
def frameOptionsExample : Options :=
  { configure_clp_defaults psExample with pex_name := some "app.pex" }

/-- **C10.** With an output file name supplied and the build succeeding,
`main` takes the save branch: it returns exit status 0 instead of freezing
in place and executing the PEX; any pre-existing file at the staging path
(the output name plus `~`) is deleted before the build; and afterwards the
rename has created the output-file path, removed the staging path, and
touched no other path. -/
theorem c10_save_branch_frame :
    ∀ (options : Options) (ps : ProcessState) (fs : FS) (content : Nat)
      (tmpOnFailure : Option Nat) (runStatus : Nat) (n : String),
      options.pex_name = some n →
      (safe_delete fs (n ++ "~")) (n ++ "~") = none ∧
      ∃ fs2,
        main_after_build_pex options ps fs (some content) tmpOnFailure
            runStatus =
          MainOutcome.saved 0 fs2 ∧
        fs2 n = some content ∧
        fs2 (n ++ "~") = none ∧
        (∀ q : String, q ≠ n → q ≠ n ++ "~" → fs2 q = fs q) := by
  intro options ps fs content tmpOnFailure runStatus n h
  have hne := tilde_staging_path_ne n
  have hne2 : (n ++ "~") ≠ n := fun h2 => hne h2.symm
  refine ⟨by simp [safe_delete], ?_⟩
  refine ⟨os_rename (fs_write (safe_delete fs (n ++ "~")) (n ++ "~")
    (some content)) (n ++ "~") n, ?_, ?_, ?_, ?_⟩
  · simp [main_after_build_pex, h]
  · simp [os_rename, fs_write]
  · simp [os_rename, fs_write, safe_delete, hne2]
  · intro q hqn hqt
    simp [os_rename, fs_write, safe_delete, hqn, hqt]

theorem c10_save_branch_frame_witness :
    (safe_delete emptyFS ("app.pex" ++ "~")) ("app.pex" ++ "~") = none ∧
    ∃ fs2,
      main_after_build_pex frameOptionsExample psExample emptyFS (some 9)
          none 0 =
        MainOutcome.saved 0 fs2 ∧
      fs2 "app.pex" = some 9 ∧
      fs2 ("app.pex" ++ "~") = none ∧
      (∀ q : String, q ≠ "app.pex" → q ≠ "app.pex" ++ "~" →
        fs2 q = emptyFS q) :=
  c10_save_branch_frame frameOptionsExample psExample emptyFS 9 none 0
    "app.pex" rfl

end PexSpec
